import Mathlib

/-!
Verification of the MasterContractorOS deterministic reconciliation engine.

The definitions below are a shallow embedding of the TypeScript engine modules
(`src/lib/engine/dedupe.ts`, `safety.ts`, `summary.ts`, `gaps.ts`, and the
sub-bid benchmarking module).  JavaScript numbers are modelled as rationals
(`ℚ`); nullable fields are modelled as `Option`; JS string rendering of
numbers (`toFixed`, template interpolation) is abstracted by `ratStr` /
`toFixedStr`, which round exactly like `toFixed` but print via Lean's `Rat`
printer.  Field sets of the record types follow the TypeScript interfaces in
the type-definitions module; fields that no modelled function ever reads
(timestamps, project ids, linking-evidence caches) are omitted.
-/

namespace MasterPlan

-- ===========================================
-- Enumerations from the type-definitions module
-- ===========================================

inductive QuoteStatus where
  | VERIFIED
  | PENDING
  | POTENTIAL_DUPLICATE
  | DECISION_REQUIRED
  | ESTIMATE
  | GAP
deriving DecidableEq, Repr

inductive LineType where
  | MATERIAL
  | LABOR
  | MATERIAL_AND_LABOR
  | LOGISTICS
  | OTHER
deriving DecidableEq, Repr

inductive ConfidenceLevel where
  | HIGH
  | MEDIUM
  | LOW
deriving DecidableEq, Repr

inductive ReconciliationRule where
  | AUTHORITATIVE
  | ADDITIVE
  | REFERENCE_ONLY
deriving DecidableEq, Repr

inductive DecisionType where
  | POTENTIAL_DUPLICATE
  | SPEC_CONFLICT
  | SOFT_MATCH
  | AMBIGUOUS_SCOPE
  | LABOR_ONLY
  | BRAND_CONFLICT
deriving DecidableEq, Repr

inductive RateSourceType where
  | QUOTE_EXTRACT
  | RATEBOOK_V1
  | LOGISTICS_RULE
  | USER_OVERRIDE
deriving DecidableEq, Repr

structure RateSource where
  type : RateSourceType
  ref : String
  date : Option String
deriving DecidableEq, Repr

structure CostRange where
  low : ℚ
  likely : ℚ
  high : ℚ
  confidence : ConfidenceLevel
  source : RateSource
deriving DecidableEq, Repr

-- ===========================================
-- Core record types (engine-relevant fields)
-- ===========================================

structure Quote where
  id : String
  vendor_name : String
  quote_number : Option String
  subtotal : Option ℚ
  tax : Option ℚ
  freight : Option ℚ
  total : Option ℚ
  is_wrapper : Bool
  reconciliation_rule : Option ReconciliationRule
  parent_quote_id : Option String
  status : QuoteStatus
  notes : Option String
  raw_text : Option String
deriving DecidableEq, Repr

structure Line where
  id : String
  quote_id : String
  description : String
  scope_tag : Option String
  quantity : Option ℚ
  unit : Option String
  unit_price : Option ℚ
  amount : Option ℚ
  line_type : LineType
  status : QuoteStatus
  notes : Option String
deriving DecidableEq, Repr

-- ===========================================
-- JavaScript-semantics helpers
-- ===========================================

/-- ASCII lower-casing of one character (model of JS `toLowerCase`). -/
def lowerChar (c : Char) : Char :=
  if 65 ≤ c.toNat ∧ c.toNat ≤ 90 then Char.ofNat (c.toNat + 32) else c

/-- Model of JavaScript `s.toLowerCase()` (ASCII range). -/
def lowerStr (s : String) : String := ⟨s.data.map lowerChar⟩

/-- ASCII upper-casing of one character (model of JS `toUpperCase`). -/
def upperChar (c : Char) : Char :=
  if 97 ≤ c.toNat ∧ c.toNat ≤ 122 then Char.ofNat (c.toNat - 32) else c

/-- Model of JavaScript `s.toUpperCase()` (ASCII range). -/
def upperStr (s : String) : String := ⟨s.data.map upperChar⟩

/-- JavaScript string containment (`haystack.includes(needle)`), on char lists. -/
def leadsWith : List Char → List Char → Bool
  | [], _ => true
  | _ :: _, [] => false
  | a :: as, b :: bs => a == b && leadsWith as bs

/-- Substring occurrence test on char lists. -/
def occursIn : List Char → List Char → Bool
  | needle, [] => needle.isEmpty
  | needle, c :: t => leadsWith needle (c :: t) || occursIn needle t

/-- Model of JavaScript `haystack.includes(needle)`. -/
def includes (haystack needle : String) : Bool :=
  occursIn needle.data haystack.data

/-- Rendering of a JS number into a string (template-literal interpolation).
JS decimal formatting is abstracted by Lean's exact `Rat` printer. -/
def ratStr (q : ℚ) : String := toString q

/-- Rendering of a possibly-undefined JS number inside a template literal. -/
def optRatStr (o : Option ℚ) : String :=
  match o with
  | some q => ratStr q
  | none => "undefined"

/-- The numeric rounding performed by JavaScript `x.toFixed(d)`:
round to `d` decimal places. -/
def toFixedRat (d : Nat) (q : ℚ) : ℚ :=
  (round (q * (10 : ℚ) ^ d) : ℤ) / (10 : ℚ) ^ d

/-- Model of JavaScript `x.toFixed(d)` followed by string interpolation. -/
def toFixedStr (d : Nat) (q : ℚ) : String := ratStr (toFixedRat d q)

/-- JavaScript truthiness of a nullable number (`undefined`, `null` and `0`
are falsy). -/
def jsNumTruthy (o : Option ℚ) : Bool :=
  match o with
  | some x => decide (x ≠ 0)
  | none => false

/-- Interpolating a possibly-undefined JS string into a template literal. -/
def jsStr (o : Option String) : String := o.getD "undefined"

-- ===========================================
-- Safety Constitution constants
-- ===========================================

structure SafetyRules where
  SOFT_MATCH_VARIANCE_PERCENT : ℚ
  TAX_TRAP_TOLERANCE_PERCENT : ℚ
  EXCLUSION_KEYWORDS : List String
  LABOR_ONLY_KEYWORDS : List String
deriving Repr

def SAFETY_RULES : SafetyRules where
  SOFT_MATCH_VARIANCE_PERCENT := 8
  TAX_TRAP_TOLERANCE_PERCENT := 0.5
  EXCLUSION_KEYWORDS :=
    ["NOT IN ESTIMATE", "NOT INCLUDED", "EXCLUDED", "BY OTHERS", "NIC",
     "N.I.C.", "ALLOWANCE ONLY"]
  LABOR_ONLY_KEYWORDS :=
    ["LABOR ONLY", "INSTALL ONLY", "INSTALLATION ONLY", "LABOR SEPARATE",
     "MATERIALS SEPARATE", "MATERIALS BY OWNER", "MBO"]

-- ===========================================
-- Dedupe engine (dedupe.ts)
-- ===========================================

/-- `isExactMatch`: two amounts match exactly (within rounding tolerance). -/
def isExactMatch (amount1 amount2 : ℚ) : Bool :=
  decide (|amount1 - amount2| < 0.01)

/-- `isSoftMatch`: amounts within the soft-match threshold (8%). -/
def isSoftMatch (amount1 amount2 : ℚ) : Bool :=
  if amount1 = 0 ∨ amount2 = 0 then false
  else
    let variance := |amount1 - amount2| / max amount1 amount2 * 100
    decide (variance ≤ SAFETY_RULES.SOFT_MATCH_VARIANCE_PERCENT ∧ 0 < variance)

/-- `getVariancePercent`: variance percentage between two amounts. -/
def getVariancePercent (amount1 amount2 : ℚ) : ℚ :=
  if amount1 = 0 ∧ amount2 = 0 then 0
  else if amount1 = 0 ∨ amount2 = 0 then 100
  else |amount1 - amount2| / max amount1 amount2 * 100

structure EvidenceResult where
  hasEvidence : Bool
  details : String
deriving DecidableEq, Repr

/-- `hasTextEvidence`: text evidence linking two quotes — the child's vendor
name or quote number appearing inside the parent's notes + raw text. -/
def hasTextEvidence (parentQuote childQuote : Quote) : EvidenceResult :=
  let parentText := lowerStr (parentQuote.raw_text.getD "")
  let parentNotes := lowerStr (parentQuote.notes.getD "")
  let combinedParent := parentText ++ " " ++ parentNotes
  let childVendor := lowerStr childQuote.vendor_name
  let childQuoteNum := lowerStr (childQuote.quote_number.getD "")
  let ev1 : List String :=
    if childVendor ≠ "" ∧ includes combinedParent childVendor = true then
      ["Vendor \"" ++ childQuote.vendor_name ++ "\" found in parent"]
    else []
  let ev2 : List String :=
    if childQuoteNum ≠ "" ∧ includes combinedParent childQuoteNum = true then
      ["Quote# \"" ++ (childQuote.quote_number.getD "") ++ "\" found in parent"]
    else []
  let evidenceFound := ev1 ++ ev2
  { hasEvidence := decide (0 < evidenceFound.length)
    details := String.intercalate "; " evidenceFound }

structure TaxTrapCheck where
  isTaxTrap : Bool
  matchesSubtotal : Bool
  matchesTotal : Bool
deriving DecidableEq, Repr

/-- `checkTaxTrap`: parent line matches child SUBTOTAL while child has a
different (larger) TOTAL. -/
def checkTaxTrap (parentLineAmount : ℚ) (childQuote : Quote) : TaxTrapCheck :=
  let subtotal := childQuote.subtotal.getD 0
  let total := childQuote.total.getD 0
  let matchesSubtotal := isExactMatch parentLineAmount subtotal
  let matchesTotal := isExactMatch parentLineAmount total
  { isTaxTrap := matchesSubtotal && !matchesTotal && decide (subtotal < total)
    matchesSubtotal := matchesSubtotal
    matchesTotal := matchesTotal }

inductive MatchType where
  | EXACT
  | SOFT
  | NO_MATCH
deriving DecidableEq, Repr

structure MatchResult where
  type : MatchType
  confidence : ℚ
  hasTextEvidence : Bool
  evidenceDetails : Option String
  variancePercent : Option ℚ
deriving DecidableEq, Repr

/-- `compareLineToQuote`: classify a parent line against a candidate child
quote as EXACT, SOFT or NO_MATCH. -/
def compareLineToQuote (parentLine : Line) (parentQuote childQuote : Quote) :
    MatchResult :=
  let lineAmount := parentLine.amount.getD 0
  let childTotal := childQuote.total.getD 0
  let childSubtotal := childQuote.subtotal.getD 0
  let evidence := hasTextEvidence parentQuote childQuote
  let taxTrap := checkTaxTrap lineAmount childQuote
  if taxTrap.matchesTotal || taxTrap.matchesSubtotal then
    { type := MatchType.EXACT
      confidence := if evidence.hasEvidence then 95 else 50
      hasTextEvidence := evidence.hasEvidence
      evidenceDetails := some
        (if taxTrap.isTaxTrap then
          "TAX TRAP: Line matches subtotal ($" ++ ratStr childSubtotal ++
            "), child total is $" ++ ratStr childTotal ++ ". " ++ evidence.details
        else evidence.details)
      variancePercent := some 0 }
  else
    let varianceFromTotal := getVariancePercent lineAmount childTotal
    let varianceFromSubtotal := getVariancePercent lineAmount childSubtotal
    let minVariance := min varianceFromTotal varianceFromSubtotal
    if minVariance ≤ SAFETY_RULES.SOFT_MATCH_VARIANCE_PERCENT then
      { type := MatchType.SOFT
        confidence := if evidence.hasEvidence then 75 else 25
        hasTextEvidence := evidence.hasEvidence
        evidenceDetails := some evidence.details
        variancePercent := some minVariance }
    else
      { type := MatchType.NO_MATCH
        confidence := 0
        hasTextEvidence := false
        evidenceDetails := none
        variancePercent := some minVariance }

structure DedupeEvidence where
  matchType : MatchType
  variance : Option ℚ
  parentAmount : Option ℚ
  childTotal : Option ℚ
  childSubtotal : Option ℚ
deriving DecidableEq, Repr

/-- The `Partial Decision` payload the dedupe engine constructs. -/
structure PartialDecision where
  decision_type : DecisionType
  title : String
  description : String
  line_id_a : String
  quote_id_b : String
  evidence : DedupeEvidence
deriving DecidableEq, Repr

inductive DedupeStatus where
  | AUTO_LINKED
  | POTENTIAL_DUPLICATE
  | NO_MATCH
deriving DecidableEq, Repr

structure DedupeResult where
  status : DedupeStatus
  match_ : MatchResult
  sourceLineId : String
  targetLineId : Option String
  decision : Option PartialDecision
deriving DecidableEq, Repr

/-- `runDedupeCheck`: the gating policy — auto-link ONLY with text evidence,
otherwise route EXACT/SOFT matches to the decision queue. -/
def runDedupeCheck (parentLine : Line) (parentQuote childQuote : Quote) :
    DedupeResult :=
  let m := compareLineToQuote parentLine parentQuote childQuote
  if m.type = MatchType.NO_MATCH then
    { status := DedupeStatus.NO_MATCH
      match_ := m
      sourceLineId := parentLine.id
      targetLineId := none
      decision := none }
  else if m.hasTextEvidence then
    { status := DedupeStatus.AUTO_LINKED
      match_ := m
      sourceLineId := parentLine.id
      targetLineId := some childQuote.id
      decision := none }
  else
    { status := DedupeStatus.POTENTIAL_DUPLICATE
      match_ := m
      sourceLineId := parentLine.id
      targetLineId := none
      decision := some
        { decision_type :=
            if m.type = MatchType.EXACT then DecisionType.POTENTIAL_DUPLICATE
            else DecisionType.SOFT_MATCH
          title := "Possible duplicate: " ++ parentLine.description
          description :=
            if m.type = MatchType.EXACT then
              "Exact amount match ($" ++ optRatStr parentLine.amount ++
                ") but no vendor/quote# evidence found."
            else
              "Soft match (" ++
                (match m.variancePercent with
                 | some v => toFixedStr 1 v
                 | none => "undefined") ++
                "% variance) without text evidence."
          line_id_a := parentLine.id
          quote_id_b := childQuote.id
          evidence :=
            { matchType := m.type
              variance := m.variancePercent
              parentAmount := parentLine.amount
              childTotal := childQuote.total
              childSubtotal := childQuote.subtotal } } }

-- ===========================================
-- Project summary engine (summary.ts)
-- ===========================================

/-- `calculateVerifiedCost`: Wrapper Truth Rule.  First pass sums totals of
VERIFIED AUTHORITATIVE wrappers and records their children's ids; second pass
adds VERIFIED non-wrapper ADDITIVE quotes whose id was not recorded. -/
def calculateVerifiedCost (quotes : List Quote) : ℚ :=
  let authoritativeWrappers := quotes.filter fun q =>
    q.is_wrapper &&
      decide (q.reconciliation_rule = some ReconciliationRule.AUTHORITATIVE) &&
      decide (q.status = QuoteStatus.VERIFIED)
  let wrapperTotal := (authoritativeWrappers.map fun w => w.total.getD 0).sum
  let processedWrapperChildren :=
    (authoritativeWrappers.map fun w =>
      (quotes.filter fun q => decide (q.parent_quote_id = some w.id)).map
        Quote.id).flatten
  let additiveTotal :=
    ((quotes.filter fun q =>
        decide (q.status = QuoteStatus.VERIFIED) && !q.is_wrapper &&
          !(decide (q.id ∈ processedWrapperChildren)) &&
          decide (q.reconciliation_rule = some ReconciliationRule.ADDITIVE)).map
      fun q => q.total.getD 0).sum
  wrapperTotal + additiveTotal

-- ===========================================
-- Tax-trap & wrapper safety engine (safety.ts)
-- ===========================================

inductive TaxAuditStatus where
  | OK
  | TAX_TRAP_DETECTED
  | VARIANCE_WARNING
deriving DecidableEq, Repr

structure TaxAuditResult where
  status : TaxAuditStatus
  variance : ℚ
  variancePercent : ℚ
  details : String
  recommendation : String
deriving DecidableEq, Repr

/-- `auditWrapperForTaxTrap`: compare the sum of children vs the wrapper's
document total and classify the variance. -/
def auditWrapperForTaxTrap (wrapperTotal childrenSum : ℚ) : TaxAuditResult :=
  let variance := wrapperTotal - childrenSum
  let variancePercent := if 0 < wrapperTotal then variance / wrapperTotal * 100 else 0
  if |variancePercent| < 0.5 then
    { status := TaxAuditStatus.OK
      variance := variance
      variancePercent := variancePercent
      details := "Wrapper total matches child sum exactly."
      recommendation := "No action needed." }
  else if 4 ≤ variancePercent ∧ variancePercent ≤ 12 then
    { status := TaxAuditStatus.TAX_TRAP_DETECTED
      variance := variance
      variancePercent := variancePercent
      details := "Wrapper total is " ++ toFixedStr 1 variancePercent ++
        "% higher than child sum. This matches typical Tax + Freight range."
      recommendation := "Verify children are linked to SUBTOTAL ($" ++
        toFixedStr 0 childrenSum ++ "), not TOTAL ($" ++
        toFixedStr 0 wrapperTotal ++ "). The $" ++ toFixedStr 0 variance ++
        " difference is likely Tax/Freight." }
  else if 12 < variancePercent ∨ variancePercent < -1 then
    { status := TaxAuditStatus.VARIANCE_WARNING
      variance := variance
      variancePercent := variancePercent
      details := "Unusual variance: " ++ toFixedStr 1 variancePercent ++
        "% ($" ++ toFixedStr 0 variance ++ ")."
      recommendation := "Review line items for missing entries or double-counting." }
  else
    { status := TaxAuditStatus.OK
      variance := variance
      variancePercent := variancePercent
      details := "Minor variance of " ++ toFixedStr 1 variancePercent ++
        "% is within tolerance."
      recommendation := "No action needed." }

structure WrapperValidationResult where
  isValid : Bool
  issues : List String
  warnings : List String
  verifiedCost : ℚ
deriving DecidableEq, Repr

/-- `validateWrapperTruth`: enforce the Wrapper Truth Rule on one wrapper
quote with its child quotes and line items. -/
def validateWrapperTruth (wrapper : Quote) (childQuotes : List Quote)
    (wrapperLines : List Line) : WrapperValidationResult :=
  let issues0 : List String := []
  let issues1 :=
    if wrapper.is_wrapper then issues0
    else issues0 ++ ["Quote is not marked as wrapper but has child quotes."]
  let issues2 :=
    if wrapper.reconciliation_rule = none then
      issues1 ++ ["Wrapper missing reconciliation_rule. Cannot determine cost treatment."]
    else issues1
  let childSum := (childQuotes.map fun q => q.total.getD 0).sum
  if wrapper.reconciliation_rule = some ReconciliationRule.AUTHORITATIVE then
    let wrapperTotal := wrapper.total.getD 0
    let taxAudit := auditWrapperForTaxTrap wrapperTotal childSum
    let warnings1 :=
      if taxAudit.status = TaxAuditStatus.TAX_TRAP_DETECTED then
        [taxAudit.details, taxAudit.recommendation]
      else []
    let issues3 :=
      if taxAudit.status = TaxAuditStatus.VARIANCE_WARNING then
        issues2 ++ [taxAudit.details, taxAudit.recommendation]
      else issues2
    let lineSum := (wrapperLines.map fun l => l.amount.getD 0).sum
    let warnings2 :=
      if 1 < |lineSum - wrapperTotal| then
        warnings1 ++ ["Wrapper line items sum ($" ++ ratStr lineSum ++
          ") differs from total ($" ++ ratStr wrapperTotal ++ ")."]
      else warnings1
    { isValid := issues3.isEmpty
      issues := issues3
      warnings := warnings2
      verifiedCost := wrapperTotal }
  else if wrapper.reconciliation_rule = some ReconciliationRule.ADDITIVE then
    { isValid := issues2.isEmpty
      issues := issues2
      warnings := []
      verifiedCost := childSum }
  else
    { isValid := issues2.isEmpty
      issues := issues2
      warnings := []
      verifiedCost := 0 }

inductive SourceType where
  | QUOTE
  | ESTIMATE
  | RATEBOOK
deriving DecidableEq, Repr

structure ConfidenceParams where
  hasTextEvidence : Bool
  variancePercent : ℚ
  sourceType : SourceType
  hasRanges : Bool
deriving DecidableEq, Repr

/-- `calculateConfidence`: confidence level from data quality. -/
def calculateConfidence (params : ConfidenceParams) : ConfidenceLevel :=
  if params.sourceType = SourceType.QUOTE ∧ params.hasTextEvidence = true ∧
      params.variancePercent < 1 then
    ConfidenceLevel.HIGH
  else if params.sourceType = SourceType.QUOTE ∧ params.variancePercent < 5 then
    ConfidenceLevel.HIGH
  else if params.sourceType = SourceType.QUOTE ∨
      (params.sourceType = SourceType.RATEBOOK ∧ params.hasRanges = true) then
    ConfidenceLevel.MEDIUM
  else
    ConfidenceLevel.LOW

/-- Ordering of confidence levels: LOW < MEDIUM < HIGH. -/
def confOrd : ConfidenceLevel → Nat
  | ConfidenceLevel.LOW => 0
  | ConfidenceLevel.MEDIUM => 1
  | ConfidenceLevel.HIGH => 2

-- ===========================================
-- Gap detection engine (gaps.ts): consolidateGaps
-- ===========================================

/-- The `Partial Gap` records the gap engine constructs and merges. -/
structure PartialGap where
  project_id : Option String
  scope_tag : Option String
  description : Option String
  source : Option String
  estimated_low : Option ℚ
  estimated_mid : Option ℚ
  estimated_high : Option ℚ
  rate_source : Option String
  confidence : Option ConfidenceLevel
deriving DecidableEq, Repr

/-- The map key used by `consolidateGaps`: the uppercased scope tag. -/
def gapKey (g : PartialGap) : String := upperStr (g.scope_tag.getD "")

/-- One merge step of `consolidateGaps`: concatenate sources and keep the
estimate triple with the largest `estimated_high`. -/
def mergeGap (existing gap : PartialGap) : PartialGap :=
  let merged := { existing with
    source := some (jsStr existing.source ++ "; " ++ jsStr gap.source) }
  if jsNumTruthy gap.estimated_high &&
      (!jsNumTruthy merged.estimated_high ||
        decide (merged.estimated_high.getD 0 < gap.estimated_high.getD 0)) then
    { merged with
        estimated_low := gap.estimated_low
        estimated_mid := gap.estimated_mid
        estimated_high := gap.estimated_high
        rate_source := gap.rate_source }
  else merged

/-- One insertion into the (insertion-ordered) JS `Map` of
`consolidateGaps`. -/
def insertGap (m : List (String × PartialGap)) (gap : PartialGap) :
    List (String × PartialGap) :=
  let key := gapKey gap
  if key ∈ m.map Prod.fst then
    m.map fun p => if p.1 = key then (p.1, mergeGap p.2 gap) else p
  else
    m ++ [(key, gap)]

/-- `consolidateGaps`: merge and deduplicate gaps by uppercased scope tag. -/
def consolidateGaps (gaps : List PartialGap) : List PartialGap :=
  (gaps.foldl insertGap []).map Prod.snd

-- ===========================================
-- Sub-bid benchmarking module
-- ===========================================

inductive PricePosition where
  | LOW
  | FAIR
  | HIGH
  | EXTREME_HIGH
deriving DecidableEq, Repr

structure SubBidBenchmark where
  position : PricePosition
  varianceFromLikelyPercent : ℚ
  suggestedLow : ℚ
  suggestedLikely : ℚ
  suggestedHigh : ℚ
  message : String
deriving DecidableEq, Repr

/-- `benchmarkSubBid`: compare a subcontractor bid to a market range. -/
def benchmarkSubBid (subBidAmount : ℚ) (marketRange : CostRange) :
    SubBidBenchmark :=
  let likely := max marketRange.likely 1
  let variance := (subBidAmount - likely) / likely * 100
  let position : PricePosition :=
    if subBidAmount ≤ marketRange.low then PricePosition.LOW
    else if subBidAmount ≤ marketRange.high then PricePosition.FAIR
    else if variance ≤ 15 then PricePosition.HIGH
    else PricePosition.EXTREME_HIGH
  let message0 := "Within expected market range."
  let message1 :=
    if position = PricePosition.LOW then
      "Bid is below expected range. Verify scope completeness and exclusions."
    else message0
  let message2 :=
    if position = PricePosition.HIGH then
      "Bid is above market range. Negotiate and compare alternates."
    else message1
  let message3 :=
    if position = PricePosition.EXTREME_HIGH then
      "Bid is significantly above market. Require itemized backup or rebid."
    else message2
  { position := position
    varianceFromLikelyPercent := toFixedRat 2 variance
    suggestedLow := marketRange.low
    suggestedLikely := marketRange.likely
    suggestedHigh := marketRange.high
    message := message3 }

-- ===========================================
-- Concrete inputs used by witnesses and counterexamples
-- ===========================================

/-- A quote with every nullable field absent (the all-defaults record). -/
def baseQuote : Quote :=
  { id := "", vendor_name := "", quote_number := none, subtotal := none,
    tax := none, freight := none, total := none, is_wrapper := false,
    reconciliation_rule := none, parent_quote_id := none,
    status := QuoteStatus.PENDING, notes := none, raw_text := none }

/-- A line with every nullable field absent. -/
def baseLine : Line :=
  { id := "", quote_id := "", description := "", scope_tag := none,
    quantity := none, unit := none, unit_price := none, amount := none,
    line_type := LineType.OTHER, status := QuoteStatus.PENDING, notes := none }

/-- An AUTHORITATIVE wrapper quote that is still PENDING (not VERIFIED). -/
def wrapPending : Quote :=
  { baseQuote with
      id := "w"
      is_wrapper := true
      reconciliation_rule := some ReconciliationRule.AUTHORITATIVE
      status := QuoteStatus.PENDING
      total := some 1000 }

/-- The same wrapper, VERIFIED. -/
def wrapVerified : Quote := { wrapPending with status := QuoteStatus.VERIFIED }

/-- A VERIFIED ADDITIVE non-wrapper child of the wrapper quote. -/
def childAdditive : Quote :=
  { baseQuote with
      id := "c"
      parent_quote_id := some "w"
      reconciliation_rule := some ReconciliationRule.ADDITIVE
      status := QuoteStatus.VERIFIED
      total := some 500 }

/-- A VERIFIED ADDITIVE non-wrapper quote unrelated to the wrapper. -/
def freeAdditive : Quote :=
  { childAdditive with id := "d", parent_quote_id := none, total := some 300 }

/-- A parent quote whose notes mention the child's vendor name. -/
def parentWithNotes : Quote :=
  { baseQuote with id := "p", notes := some "Contains ABC Flooring Inc quote" }

/-- A child quote whose vendor name appears in `parentWithNotes`. -/
def childVendorQuote : Quote :=
  { baseQuote with id := "ch", vendor_name := "ABC Flooring Inc" }

/-- The market range of the benchmarking scenario in the spec. -/
def marketSample : CostRange :=
  { low := 8500, likely := 10000, high := 12000,
    confidence := ConfidenceLevel.MEDIUM,
    source := { type := RateSourceType.RATEBOOK_V1, ref := "r", date := none } }

/-- A market range whose `low` bound exceeds its `high` bound. -/
def marketInverted : CostRange := { marketSample with low := 20000 }

-- ===========================================
-- Theorems
-- ===========================================

/-- C7: `getVariancePercent` is total and defined case by case: both amounts
zero gives 0, exactly one zero gives 100, and otherwise it is the exact
(finite) rational `|a - b| / max a b * 100`. -/
theorem getVariancePercent_total (a b : ℚ) (ha : a ≠ 0) (hb : b ≠ 0) :
    getVariancePercent 0 0 = 0 ∧
    getVariancePercent a 0 = 100 ∧
    getVariancePercent 0 a = 100 ∧
    getVariancePercent a b = |a - b| / max a b * 100 := by
  refine ⟨by norm_num [getVariancePercent], ?_, ?_, ?_⟩ <;>
    simp [getVariancePercent, ha, hb]

/-- Witness for C7 at `a = 3`, `b = 4`. -/
theorem getVariancePercent_total_witness :
    getVariancePercent 0 0 = 0 ∧
    getVariancePercent 3 0 = 100 ∧
    getVariancePercent 0 3 = 100 ∧
    getVariancePercent 3 4 = |(3 : ℚ) - 4| / max (3 : ℚ) 4 * 100 :=
  getVariancePercent_total 3 4 (by norm_num) (by norm_num)

/-- C3 (counterexample): the claim's formula
`variance% = (wrapperTotal - childrenSum) / wrapperTotal * 100` fails for a
non-positive wrapper total: at `(-1000, -900)` the formula gives 10 (which
the claim classifies TAX_TRAP_DETECTED), but the code computes 0 and returns
OK. -/
theorem auditWrapperForTaxTrap_negative_total_cex :
    ((-1000 : ℚ) - (-900)) / (-1000) * 100 = 10 ∧
    (auditWrapperForTaxTrap (-1000) (-900)).variancePercent = 0 ∧
    (auditWrapperForTaxTrap (-1000) (-900)).status = TaxAuditStatus.OK := by
  refine ⟨by norm_num, ?_, ?_⟩ <;> norm_num [auditWrapperForTaxTrap, abs_lt]

/-- C3 (amended): for a positive wrapper total, `auditWrapperForTaxTrap`
computes `variance% = (wrapperTotal - childrenSum) / wrapperTotal * 100` and
classifies it OK when |variance%| < 0.5, TAX_TRAP_DETECTED when
4 ≤ variance% ≤ 12, VARIANCE_WARNING when variance% > 12 or variance% < -1,
and OK otherwise; when the wrapper total is not positive, variance% is taken
as 0 (hence OK).  The spec's three concrete examples hold as stated. -/
theorem auditWrapperForTaxTrap_classification (w s : ℚ) (hw : 0 < w) :
    ((auditWrapperForTaxTrap w s).variancePercent = (w - s) / w * 100 ∧
     (auditWrapperForTaxTrap w s).status =
       (if |(w - s) / w * 100| < 0.5 then TaxAuditStatus.OK
        else if 4 ≤ (w - s) / w * 100 ∧ (w - s) / w * 100 ≤ 12 then
          TaxAuditStatus.TAX_TRAP_DETECTED
        else if 12 < (w - s) / w * 100 ∨ (w - s) / w * 100 < -1 then
          TaxAuditStatus.VARIANCE_WARNING
        else TaxAuditStatus.OK)) ∧
    (auditWrapperForTaxTrap 1000 900).status = TaxAuditStatus.TAX_TRAP_DETECTED ∧
    (auditWrapperForTaxTrap 1000 900).variancePercent = 10 ∧
    (auditWrapperForTaxTrap 1000 998).status = TaxAuditStatus.OK ∧
    (auditWrapperForTaxTrap 1000 700).status = TaxAuditStatus.VARIANCE_WARNING := by
  refine ⟨⟨?_, ?_⟩, by norm_num [auditWrapperForTaxTrap, abs_lt],
    by norm_num [auditWrapperForTaxTrap, abs_lt], by norm_num [auditWrapperForTaxTrap, abs_lt],
    by norm_num [auditWrapperForTaxTrap, abs_lt]⟩ <;>
  · simp only [auditWrapperForTaxTrap, hw, if_true]
    split_ifs <;> rfl

/-- Witness for C3 at `wrapperTotal = 1000`, `childrenSum = 900`. -/
theorem auditWrapperForTaxTrap_classification_witness :
    (auditWrapperForTaxTrap 1000 900).variancePercent =
      ((1000 : ℚ) - 900) / 1000 * 100 ∧
    (auditWrapperForTaxTrap 1000 900).status = TaxAuditStatus.TAX_TRAP_DETECTED :=
  ⟨(auditWrapperForTaxTrap_classification 1000 900 (by norm_num)).1.1,
   (auditWrapperForTaxTrap_classification 1000 900 (by norm_num)).2.1⟩

/-- C8 (counterexample): for a market range whose `low` bound exceeds its
`high` bound, a bid above `high` with variance above 15% is classified LOW,
not EXTREME_HIGH, because the `bid ≤ low` branch fires first. -/
theorem benchmarkSubBid_inverted_range_cex :
    marketInverted.high < 13500 ∧
    15 < ((13500 : ℚ) - max marketInverted.likely 1) /
      max marketInverted.likely 1 * 100 ∧
    (benchmarkSubBid 13500 marketInverted).position = PricePosition.LOW := by
  refine ⟨?_, ?_, ?_⟩ <;>
    norm_num [benchmarkSubBid, marketInverted, marketSample, max_def]

/-- C8 (amended): for a bid above both `marketRange.low` and
`marketRange.high`, the position is EXTREME_HIGH exactly when the variance
from `max(likely, 1)` exceeds 15%, and HIGH otherwise; and the spec scenario
`benchmarkSubBid 13500 {low := 8500, likely := 10000, high := 12000}` yields
EXTREME_HIGH with `varianceFromLikelyPercent = 35`. -/
theorem benchmarkSubBid_above_high (bid : ℚ) (r : CostRange)
    (hlow : r.low < bid) (hhigh : r.high < bid) :
    ((benchmarkSubBid bid r).position = PricePosition.EXTREME_HIGH ↔
      15 < (bid - max r.likely 1) / max r.likely 1 * 100) ∧
    ((benchmarkSubBid bid r).position = PricePosition.HIGH ↔
      (bid - max r.likely 1) / max r.likely 1 * 100 ≤ 15) ∧
    (benchmarkSubBid 13500 marketSample).position = PricePosition.EXTREME_HIGH ∧
    (benchmarkSubBid 13500 marketSample).varianceFromLikelyPercent = 35 := by
  refine ⟨?_, ?_,
    by norm_num [benchmarkSubBid, marketSample, max_def],
    by norm_num [benchmarkSubBid, marketSample, max_def, toFixedRat, round_eq]⟩ <;>
  · simp only [benchmarkSubBid]
    split_ifs <;> simp_all <;> linarith

/-- Witness for C8 at the spec scenario. -/
theorem benchmarkSubBid_above_high_witness :
    (benchmarkSubBid 13500 marketSample).position = PricePosition.EXTREME_HIGH :=
  ((benchmarkSubBid_above_high 13500 marketSample (by norm_num [marketSample])
      (by norm_num [marketSample])).1).mpr
    (by norm_num [marketSample, max_def])

/-- C10: `compareLineToQuote` treats null monetary fields as 0 — a null line
amount against a child with null subtotal and total is an EXACT match with
variance 0, and with text evidence `runDedupeCheck` auto-links the pair. -/
theorem compareLineToQuote_null_amounts (l : Line) (pq cq : Quote)
    (h1 : l.amount = none) (h2 : cq.subtotal = none) (h3 : cq.total = none) :
    (compareLineToQuote l pq cq).type = MatchType.EXACT ∧
    (compareLineToQuote l pq cq).variancePercent = some 0 ∧
    ((hasTextEvidence pq cq).hasEvidence = true →
      (runDedupeCheck l pq cq).status = DedupeStatus.AUTO_LINKED) := by
  have hx : isExactMatch 0 0 = true := by norm_num [isExactMatch]
  refine ⟨?_, ?_, ?_⟩
  · simp [compareLineToQuote, checkTaxTrap, h1, h2, h3, hx]
  · simp [compareLineToQuote, checkTaxTrap, h1, h2, h3, hx]
  · intro hev
    simp [runDedupeCheck, compareLineToQuote, checkTaxTrap, h1, h2, h3, hx, hev]

/-- Witness for C10: a null-amount line against a null-total quote whose
vendor name appears in the parent's notes is auto-linked. -/
theorem compareLineToQuote_null_amounts_witness :
    (compareLineToQuote baseLine parentWithNotes childVendorQuote).type =
      MatchType.EXACT ∧
    (runDedupeCheck baseLine parentWithNotes childVendorQuote).status =
      DedupeStatus.AUTO_LINKED := by
  have h := compareLineToQuote_null_amounts baseLine parentWithNotes
    childVendorQuote rfl rfl rfl
  exact ⟨h.1, h.2.2 (by decide)⟩

/-- C1: `runDedupeCheck` returns AUTO_LINKED only if `hasTextEvidence` holds
for the pair, and an EXACT or SOFT match without text evidence always yields
POTENTIAL_DUPLICATE with a Decision attached. -/
theorem runDedupeCheck_no_silent_autolink (l : Line) (pq cq : Quote) :
    ((runDedupeCheck l pq cq).status = DedupeStatus.AUTO_LINKED →
      (hasTextEvidence pq cq).hasEvidence = true) ∧
    (((compareLineToQuote l pq cq).type = MatchType.EXACT ∨
        (compareLineToQuote l pq cq).type = MatchType.SOFT) →
      (hasTextEvidence pq cq).hasEvidence = false →
      (runDedupeCheck l pq cq).status = DedupeStatus.POTENTIAL_DUPLICATE ∧
      (runDedupeCheck l pq cq).decision.isSome = true) := by
  simp only [runDedupeCheck, compareLineToQuote]
  split_ifs <;> simp_all

/-- Witness for C1: an exact numeric coincidence (both amounts 0) without any
text evidence is routed to POTENTIAL_DUPLICATE with a Decision. -/
theorem runDedupeCheck_no_silent_autolink_witness :
    (runDedupeCheck baseLine baseQuote childVendorQuote).status =
      DedupeStatus.POTENTIAL_DUPLICATE ∧
    (runDedupeCheck baseLine baseQuote childVendorQuote).decision.isSome = true := by
  have hx : isExactMatch 0 0 = true := by norm_num [isExactMatch]
  refine (runDedupeCheck_no_silent_autolink baseLine baseQuote childVendorQuote).2
    (Or.inl ?_) (by decide)
  simp [compareLineToQuote, checkTaxTrap, baseLine, baseQuote, childVendorQuote, hx]

/-- C4: `validateWrapperTruth` returns the wrapper's own total under
AUTHORITATIVE, the children's sum under ADDITIVE, and 0 under
REFERENCE_ONLY; under AUTHORITATIVE a TAX_TRAP_DETECTED audit adds only
warnings (validity is preserved for a well-formed wrapper) while a
VARIANCE_WARNING audit adds issues and forces `isValid = false`. -/
theorem validateWrapperTruth_rules (wrapper : Quote) (childQuotes : List Quote)
    (wrapperLines : List Line) :
    (wrapper.reconciliation_rule = some ReconciliationRule.AUTHORITATIVE →
      (validateWrapperTruth wrapper childQuotes wrapperLines).verifiedCost =
        wrapper.total.getD 0) ∧
    (wrapper.reconciliation_rule = some ReconciliationRule.ADDITIVE →
      (validateWrapperTruth wrapper childQuotes wrapperLines).verifiedCost =
        (childQuotes.map fun q => q.total.getD 0).sum) ∧
    (wrapper.reconciliation_rule = some ReconciliationRule.REFERENCE_ONLY →
      (validateWrapperTruth wrapper childQuotes wrapperLines).verifiedCost = 0) ∧
    (wrapper.reconciliation_rule = some ReconciliationRule.AUTHORITATIVE →
      wrapper.is_wrapper = true →
      (auditWrapperForTaxTrap (wrapper.total.getD 0)
          ((childQuotes.map fun q => q.total.getD 0).sum)).status =
        TaxAuditStatus.TAX_TRAP_DETECTED →
      (validateWrapperTruth wrapper childQuotes wrapperLines).isValid = true ∧
      (validateWrapperTruth wrapper childQuotes wrapperLines).warnings ≠ []) ∧
    (wrapper.reconciliation_rule = some ReconciliationRule.AUTHORITATIVE →
      (auditWrapperForTaxTrap (wrapper.total.getD 0)
          ((childQuotes.map fun q => q.total.getD 0).sum)).status =
        TaxAuditStatus.VARIANCE_WARNING →
      (validateWrapperTruth wrapper childQuotes wrapperLines).isValid = false ∧
      (validateWrapperTruth wrapper childQuotes wrapperLines).issues ≠ []) := by
  simp only [validateWrapperTruth]
  split_ifs <;> simp_all

/-- Witness for C4: an AUTHORITATIVE wrapper whose children sum to its
subtotal-plus-tax band triggers the tax-trap warning path with
`isValid = true` and `verifiedCost` equal to the wrapper's own total. -/
theorem validateWrapperTruth_rules_witness :
    (validateWrapperTruth wrapVerified [{ childAdditive with total := some 920 }] []).verifiedCost =
      wrapVerified.total.getD 0 ∧
    (validateWrapperTruth wrapVerified [{ childAdditive with total := some 920 }] []).isValid =
      true := by
  have h := validateWrapperTruth_rules wrapVerified [{ childAdditive with total := some 920 }] []
  have haud : (auditWrapperForTaxTrap (wrapVerified.total.getD 0)
      (([{ childAdditive with total := some 920 }].map fun q => q.total.getD 0).sum)).status =
      TaxAuditStatus.TAX_TRAP_DETECTED := by
    norm_num [auditWrapperForTaxTrap, abs_lt, wrapVerified, wrapPending, baseQuote, childAdditive]
  exact ⟨h.1 rfl, (h.2.2.2.1 rfl rfl haud).1⟩

/-- Characterization of when `calculateConfidence` returns HIGH. -/
lemma calculateConfidence_high_iff (ev hr : Bool) (st : SourceType) (v : ℚ) :
    calculateConfidence ⟨ev, v, st, hr⟩ = ConfidenceLevel.HIGH ↔
      st = SourceType.QUOTE ∧ ((ev = true ∧ v < 1) ∨ v < 5) := by
  have h15 : v < 1 → v < 5 := fun h => by linarith
  simp only [calculateConfidence]
  split_ifs with h1 h2 h3 <;> simp_all

/-- Characterization of when `calculateConfidence` returns MEDIUM. -/
lemma calculateConfidence_medium_iff (ev hr : Bool) (st : SourceType) (v : ℚ) :
    calculateConfidence ⟨ev, v, st, hr⟩ = ConfidenceLevel.MEDIUM ↔
      ¬(st = SourceType.QUOTE ∧ ((ev = true ∧ v < 1) ∨ v < 5)) ∧
      (st = SourceType.QUOTE ∨ (st = SourceType.RATEBOOK ∧ hr = true)) := by
  have h15 : v < 1 → v < 5 := fun h => by linarith
  simp only [calculateConfidence]
  split_ifs with h1 h2 h3 <;> simp_all

/-- Characterization of when `calculateConfidence` returns LOW. -/
lemma calculateConfidence_low_iff (ev hr : Bool) (st : SourceType) (v : ℚ) :
    calculateConfidence ⟨ev, v, st, hr⟩ = ConfidenceLevel.LOW ↔
      ¬(st = SourceType.QUOTE ∧ ((ev = true ∧ v < 1) ∨ v < 5)) ∧
      ¬(st = SourceType.QUOTE ∨ (st = SourceType.RATEBOOK ∧ hr = true)) := by
  have h15 : v < 1 → v < 5 := fun h => by linarith
  simp only [calculateConfidence]
  split_ifs with h1 h2 h3 <;> simp_all

/-- Raising the variance never raises the confidence level. -/
lemma calculateConfidence_ord_mono (ev hr : Bool) (st : SourceType) (v v2 : ℚ)
    (h : v ≤ v2) :
    confOrd (calculateConfidence ⟨ev, v2, st, hr⟩) ≤
      confOrd (calculateConfidence ⟨ev, v, st, hr⟩) := by
  simp only [calculateConfidence]
  split_ifs <;> simp_all [confOrd] <;> linarith

/-- C5: `calculateConfidence` is antitone in `variancePercent` on the ordering
LOW < MEDIUM < HIGH with the other inputs fixed, returns HIGH exactly for
QUOTE sources with (evidence and variance < 1, or variance < 5), MEDIUM
exactly in the remaining QUOTE / RATEBOOK-with-ranges cases, and LOW
otherwise. -/
theorem calculateConfidence_monotone (ev hr : Bool) (st : SourceType) (v v2 : ℚ)
    (h : v ≤ v2) :
    confOrd (calculateConfidence ⟨ev, v2, st, hr⟩) ≤
      confOrd (calculateConfidence ⟨ev, v, st, hr⟩) ∧
    (calculateConfidence ⟨ev, v, st, hr⟩ = ConfidenceLevel.HIGH ↔
      st = SourceType.QUOTE ∧ ((ev = true ∧ v < 1) ∨ v < 5)) ∧
    (calculateConfidence ⟨ev, v, st, hr⟩ = ConfidenceLevel.MEDIUM ↔
      ¬(st = SourceType.QUOTE ∧ ((ev = true ∧ v < 1) ∨ v < 5)) ∧
      (st = SourceType.QUOTE ∨ (st = SourceType.RATEBOOK ∧ hr = true))) ∧
    (calculateConfidence ⟨ev, v, st, hr⟩ = ConfidenceLevel.LOW ↔
      ¬(st = SourceType.QUOTE ∧ ((ev = true ∧ v < 1) ∨ v < 5)) ∧
      ¬(st = SourceType.QUOTE ∨ (st = SourceType.RATEBOOK ∧ hr = true))) :=
  ⟨calculateConfidence_ord_mono ev hr st v v2 h,
   calculateConfidence_high_iff ev hr st v,
   calculateConfidence_medium_iff ev hr st v,
   calculateConfidence_low_iff ev hr st v⟩

/-- Witness for C5 at evidence-backed QUOTE data with variances 0 and 10. -/
theorem calculateConfidence_monotone_witness :
    confOrd (calculateConfidence ⟨true, 10, SourceType.QUOTE, false⟩) ≤
      confOrd (calculateConfidence ⟨true, 0, SourceType.QUOTE, false⟩) ∧
    (calculateConfidence ⟨true, 0, SourceType.QUOTE, false⟩ =
        ConfidenceLevel.HIGH ↔
      SourceType.QUOTE = SourceType.QUOTE ∧
        ((true = true ∧ (0 : ℚ) < 1) ∨ (0 : ℚ) < 5)) := by
  have h := calculateConfidence_monotone true false SourceType.QUOTE 0 10
    (by norm_num)
  exact ⟨h.1, h.2.1⟩

/-- A Boolean filter whose predicate holds at exactly one element of a
duplicate-free list selects exactly that element. -/
lemma filter_eq_singleton {α : Type _} (p : α → Bool) (l : List α) (a : α)
    (hl : l.Nodup) (ha : a ∈ l) (hpa : p a = true)
    (huniq : ∀ x ∈ l, p x = true → x = a) :
    l.filter p = [a] := by
  induction l with
  | nil => cases ha
  | cons b bs ih =>
    rcases List.mem_cons.mp ha with h | h
    · subst h
      rw [List.filter_cons_of_pos hpa]
      have hnil : bs.filter p = [] := by
        rw [List.filter_eq_nil_iff]
        intro x hx hpx
        have hxa := huniq x (List.mem_cons_of_mem _ hx) hpx
        exact absurd (hxa ▸ hx) (List.nodup_cons.mp hl).1
      rw [hnil]
    · have hba : p b = false := by
        by_contra hpb
        have hpb' : p b = true := by
          cases hb : p b
          · exact absurd hb hpb
          · rfl
        have hb := huniq b (List.mem_cons_self b bs) hpb'
        exact absurd (hb ▸ h) (List.nodup_cons.mp hl).1
      rw [List.filter_cons_of_neg (by simp [hba])]
      exact ih (List.nodup_cons.mp hl).2 h
        (fun x hx hpx => huniq x (List.mem_cons_of_mem _ hx) hpx)

/-- When no quote is a VERIFIED AUTHORITATIVE wrapper, `calculateVerifiedCost`
degenerates to the plain sum over VERIFIED non-wrapper ADDITIVE quotes. -/
lemma calculateVerifiedCost_no_auth (quotes : List Quote)
    (hnone : ∀ q ∈ quotes, ¬(q.is_wrapper = true ∧
      q.reconciliation_rule = some ReconciliationRule.AUTHORITATIVE ∧
      q.status = QuoteStatus.VERIFIED)) :
    calculateVerifiedCost quotes =
      ((quotes.filter fun q =>
          decide (q.status = QuoteStatus.VERIFIED) && !q.is_wrapper &&
          decide (q.reconciliation_rule = some ReconciliationRule.ADDITIVE)).map
        fun q => q.total.getD 0).sum := by
  have hfil : (quotes.filter fun q =>
      q.is_wrapper &&
        decide (q.reconciliation_rule = some ReconciliationRule.AUTHORITATIVE) &&
        decide (q.status = QuoteStatus.VERIFIED)) = [] := by
    rw [List.filter_eq_nil_iff]
    intro q hq
    have := hnone q hq
    simp_all
  simp only [calculateVerifiedCost, hfil, List.map_nil, List.sum_nil,
    List.flatten_nil, List.not_mem_nil, decide_False, Bool.not_false,
    Bool.true_and, Bool.and_true, zero_add]

/-- C2 (counterexample): the claim as stated omits the VERIFIED requirement on
the wrapper.  For an AUTHORITATIVE wrapper that is still PENDING, the engine
returns only the child's 500, while the claim's formula gives
`W.total + 0 = 1000`. -/
theorem calculateVerifiedCost_pending_wrapper_cex :
    calculateVerifiedCost [wrapPending, childAdditive] = 500 ∧
    wrapPending.total.getD 0 +
      (([wrapPending, childAdditive].filter fun q =>
          decide (q.status = QuoteStatus.VERIFIED) && !q.is_wrapper &&
          !(decide (q.parent_quote_id = some wrapPending.id)) &&
          decide (q.reconciliation_rule = some ReconciliationRule.ADDITIVE)).map
        fun q => q.total.getD 0).sum = 1000 ∧
    (500 : ℚ) ≠ 1000 := by
  refine ⟨?_, ?_, by norm_num⟩ <;>
  · simp [calculateVerifiedCost, wrapPending, childAdditive, baseQuote]
    try norm_num

/-- C2 (amended): for a duplicate-free list of quotes containing a VERIFIED
AUTHORITATIVE wrapper `W` that is the only VERIFIED AUTHORITATIVE wrapper in
the list, `calculateVerifiedCost` equals `W`'s own total plus the sum of
totals of VERIFIED non-wrapper ADDITIVE quotes that are not children of `W`;
hence no child of `W` contributes, no quote contributes twice, and
REFERENCE_ONLY quotes never contribute. -/
theorem calculateVerifiedCost_wrapper_exclusive (quotes : List Quote) (W : Quote)
    (hid : (quotes.map Quote.id).Nodup)
    (hmem : W ∈ quotes)
    (hwrap : W.is_wrapper = true)
    (hrule : W.reconciliation_rule = some ReconciliationRule.AUTHORITATIVE)
    (hstat : W.status = QuoteStatus.VERIFIED)
    (huniq : ∀ q ∈ quotes, q.is_wrapper = true →
      q.reconciliation_rule = some ReconciliationRule.AUTHORITATIVE →
      q.status = QuoteStatus.VERIFIED → q = W) :
    calculateVerifiedCost quotes =
      W.total.getD 0 +
      ((quotes.filter fun q =>
          decide (q.status = QuoteStatus.VERIFIED) && !q.is_wrapper &&
          !(decide (q.parent_quote_id = some W.id)) &&
          decide (q.reconciliation_rule = some ReconciliationRule.ADDITIVE)).map
        fun q => q.total.getD 0).sum := by
  have hnodup : quotes.Nodup := List.Nodup.of_map _ hid
  have hfil : (quotes.filter fun q =>
      q.is_wrapper &&
        decide (q.reconciliation_rule = some ReconciliationRule.AUTHORITATIVE) &&
        decide (q.status = QuoteStatus.VERIFIED)) = [W] := by
    apply filter_eq_singleton _ _ _ hnodup hmem
    · simp [hwrap, hrule, hstat]
    · intro x hx hpx
      simp only [Bool.and_eq_true, decide_eq_true_eq] at hpx
      exact huniq x hx hpx.1.1 hpx.1.2 hpx.2
  have hproc : ∀ q ∈ quotes,
      (q.id ∈ ((quotes.filter fun q' =>
        decide (q'.parent_quote_id = some W.id)).map Quote.id))
        ↔ q.parent_quote_id = some W.id := by
    intro q hq
    constructor
    · intro hmem'
      rcases List.mem_map.mp hmem' with ⟨q', hq', hid'⟩
      rcases List.mem_filter.mp hq' with ⟨hq'mem, hq'p⟩
      have heq : q' = q := List.inj_on_of_nodup_map hid hq'mem hq hid'
      subst heq
      simpa using hq'p
    · intro hp
      exact List.mem_map.mpr ⟨q, List.mem_filter.mpr ⟨hq, by simpa using hp⟩, rfl⟩
  simp only [calculateVerifiedCost, hfil, List.map_cons, List.map_nil,
    List.sum_cons, List.sum_nil, List.flatten_cons, List.flatten_nil,
    List.append_nil, add_zero]
  have hcong : (quotes.filter fun q =>
      decide (q.status = QuoteStatus.VERIFIED) && !q.is_wrapper &&
        !(decide (q.id ∈ ((quotes.filter fun q' =>
            decide (q'.parent_quote_id = some W.id)).map Quote.id))) &&
        decide (q.reconciliation_rule = some ReconciliationRule.ADDITIVE)) =
      (quotes.filter fun q =>
      decide (q.status = QuoteStatus.VERIFIED) && !q.is_wrapper &&
        !(decide (q.parent_quote_id = some W.id)) &&
        decide (q.reconciliation_rule = some ReconciliationRule.ADDITIVE)) := by
    apply List.filter_congr
    intro q hq
    have := hproc q hq
    simp [this]
  rw [hcong]

/-- Witness for C2: a VERIFIED wrapper with one child and one free ADDITIVE
quote. -/
theorem calculateVerifiedCost_wrapper_exclusive_witness :
    calculateVerifiedCost [wrapVerified, childAdditive, freeAdditive] =
      wrapVerified.total.getD 0 +
      (([wrapVerified, childAdditive, freeAdditive].filter fun q =>
          decide (q.status = QuoteStatus.VERIFIED) && !q.is_wrapper &&
          !(decide (q.parent_quote_id = some wrapVerified.id)) &&
          decide (q.reconciliation_rule = some ReconciliationRule.ADDITIVE)).map
        fun q => q.total.getD 0).sum := by
  apply calculateVerifiedCost_wrapper_exclusive
  · decide
  · decide
  · rfl
  · rfl
  · rfl
  · decide

/-- C9: a child quote escapes the ADDITIVE pass only under a VERIFIED
AUTHORITATIVE wrapper.  With an AUTHORITATIVE wrapper `W` that is not
VERIFIED (and no other VERIFIED AUTHORITATIVE wrapper), `W`'s total
contributes nothing and every VERIFIED non-wrapper ADDITIVE quote — its
children included — is summed. -/
theorem calculateVerifiedCost_unverified_wrapper (quotes : List Quote) (W : Quote)
    (hmem : W ∈ quotes)
    (hwrap : W.is_wrapper = true)
    (hrule : W.reconciliation_rule = some ReconciliationRule.AUTHORITATIVE)
    (hstat : W.status ≠ QuoteStatus.VERIFIED)
    (hnone : ∀ q ∈ quotes, ¬(q.is_wrapper = true ∧
      q.reconciliation_rule = some ReconciliationRule.AUTHORITATIVE ∧
      q.status = QuoteStatus.VERIFIED)) :
    calculateVerifiedCost quotes =
      ((quotes.filter fun q =>
          decide (q.status = QuoteStatus.VERIFIED) && !q.is_wrapper &&
          decide (q.reconciliation_rule = some ReconciliationRule.ADDITIVE)).map
        fun q => q.total.getD 0).sum :=
  calculateVerifiedCost_no_auth quotes hnone

/-- Witness for C9: the PENDING wrapper contributes nothing while its
VERIFIED ADDITIVE child is still counted. -/
theorem calculateVerifiedCost_unverified_wrapper_witness :
    calculateVerifiedCost [wrapPending, childAdditive] =
      (([wrapPending, childAdditive].filter fun q =>
          decide (q.status = QuoteStatus.VERIFIED) && !q.is_wrapper &&
          decide (q.reconciliation_rule = some ReconciliationRule.ADDITIVE)).map
        fun q => q.total.getD 0).sum := by
  apply calculateVerifiedCost_unverified_wrapper _ wrapPending
  · decide
  · rfl
  · rfl
  · decide
  · decide

/-- Merging never changes the scope tag of the retained entry. -/
lemma mergeGap_scope_tag (e g : PartialGap) :
    (mergeGap e g).scope_tag = e.scope_tag := by
  simp only [mergeGap]
  split <;> rfl

/-- Merging never changes the map key of the retained entry. -/
lemma gapKey_mergeGap (e g : PartialGap) : gapKey (mergeGap e g) = gapKey e := by
  simp [gapKey, mergeGap_scope_tag]

/-- `insertGap` preserves the map invariant: keys are duplicate-free and each
stored gap's key matches its map key. -/
lemma goodMap_insertGap (m : List (String × PartialGap)) (g : PartialGap)
    (h1 : (m.map Prod.fst).Nodup) (h2 : ∀ p ∈ m, gapKey p.2 = p.1) :
    ((insertGap m g).map Prod.fst).Nodup ∧
      ∀ p ∈ insertGap m g, gapKey p.2 = p.1 := by
  simp only [insertGap]
  split
  · constructor
    · have hfst : (m.map fun p =>
          if p.1 = gapKey g then (p.1, mergeGap p.2 g) else p).map Prod.fst =
          m.map Prod.fst := by
        rw [List.map_map]
        apply List.map_congr_left
        intro p hp
        by_cases h : p.1 = gapKey g <;> simp [h]
      rw [hfst]
      exact h1
    · intro p hp
      rcases List.mem_map.mp hp with ⟨q, hq, rfl⟩
      by_cases h : q.1 = gapKey g
      · simp [h, gapKey_mergeGap, h2 q hq]
      · simp [h, h2 q hq]
  · constructor
    · rw [List.map_append]
      simp only [List.map_cons, List.map_nil]
      rw [List.nodup_append]
      refine ⟨h1, List.nodup_singleton _, ?_⟩
      intro a ha hb
      simp only [List.mem_singleton] at hb
      subst hb
      exact (by assumption : ¬ gapKey g ∈ m.map Prod.fst) ha
    · intro p hp
      rcases List.mem_append.mp hp with h | h
      · exact h2 p h
      · simp only [List.mem_singleton] at h
        subst h
        rfl

/-- The map invariant is preserved across the whole consolidation fold. -/
lemma goodMap_foldl (gaps : List PartialGap) :
    ∀ m : List (String × PartialGap),
    (m.map Prod.fst).Nodup → (∀ p ∈ m, gapKey p.2 = p.1) →
    ((gaps.foldl insertGap m).map Prod.fst).Nodup ∧
      ∀ p ∈ gaps.foldl insertGap m, gapKey p.2 = p.1 := by
  induction gaps with
  | nil => exact fun m h1 h2 => ⟨h1, h2⟩
  | cons g gs ih =>
    intro m h1 h2
    have h := goodMap_insertGap m g h1 h2
    exact ih _ h.1 h.2

/-- After one consolidation pass, all uppercased scope-tag keys are
pairwise distinct. -/
lemma consolidateGaps_keys_nodup (gaps : List PartialGap) :
    ((consolidateGaps gaps).map gapKey).Nodup := by
  have h := goodMap_foldl gaps [] (by simp) (by simp)
  unfold consolidateGaps
  rw [List.map_map]
  have heq : (gaps.foldl insertGap []).map (gapKey ∘ Prod.snd) =
      (gaps.foldl insertGap []).map Prod.fst := by
    apply List.map_congr_left
    intro p hp
    exact h.2 p hp
  rw [heq]
  exact h.1

/-- Folding gaps whose keys are all fresh just appends them to the map. -/
lemma foldl_insertGap_fresh (gaps : List PartialGap) :
    ∀ m : List (String × PartialGap),
    (m.map Prod.fst ++ gaps.map gapKey).Nodup →
    gaps.foldl insertGap m = m ++ gaps.map fun g => (gapKey g, g) := by
  induction gaps with
  | nil => intro m _; simp
  | cons g gs ih =>
    intro m h
    have hkey : ¬ gapKey g ∈ m.map Prod.fst := by
      intro hmem
      rcases List.nodup_append.mp h with ⟨_, _, hdisj⟩
      exact hdisj hmem (by simp)
    have hstep : insertGap m g = m ++ [(gapKey g, g)] := by
      simp only [insertGap]
      rw [if_neg hkey]
    rw [List.foldl_cons, hstep, ih (m ++ [(gapKey g, g)]) ?_]
    · simp
    · simp only [List.map_append, List.map_cons, List.map_nil]
      have : (m.map Prod.fst ++ [gapKey g]) ++ gs.map gapKey =
          m.map Prod.fst ++ (gapKey g :: gs.map gapKey) := by
        simp
      rw [this]
      simpa using h

/-- Consolidation is the identity on a gap list whose keys are already
pairwise distinct. -/
lemma consolidateGaps_of_nodup_keys (gaps : List PartialGap)
    (h : (gaps.map gapKey).Nodup) : consolidateGaps gaps = gaps := by
  unfold consolidateGaps
  rw [foldl_insertGap_fresh gaps [] (by simpa using h)]
  simp only [List.nil_append, List.map_map]
  have hid : (Prod.snd ∘ fun g : PartialGap => (gapKey g, g)) = id := rfl
  rw [hid, List.map_id]

/-- C6: `consolidateGaps` is idempotent — one pass reaches a fixpoint in which
all uppercased scope-tag keys are pairwise distinct, so a second pass is the
identity. -/
theorem consolidateGaps_idempotent (gaps : List PartialGap) :
    consolidateGaps (consolidateGaps gaps) = consolidateGaps gaps ∧
    ((consolidateGaps gaps).map gapKey).Nodup :=
  ⟨consolidateGaps_of_nodup_keys _ (consolidateGaps_keys_nodup gaps),
   consolidateGaps_keys_nodup gaps⟩

end MasterPlan
